import Mathlib

/-!
Shallow embedding of the AURA-MF demo backend panel solver
(`docs/assets/js/aura_demo_backend.py`): the `SimulationParameters`
dataclass, the `SimplifiedPhysicsSolver` physics functions and
time-stepping loop, and the `/api/simulate` route's range validation.
Python floats are modelled as real numbers; numpy grids as functions
`ℕ → ℕ → ℝ` indexed by (row, column); `np.pad(·, 1, mode='edge')`
followed by slicing is realized as index clamping.
-/

namespace AuraMF

noncomputable section

/-- Embeds the `SimulationParameters` dataclass: its fields, in source order.
The Python dataclass performs no validation and cannot fail; likewise the
Lean constructor is total. -/
structure SimulationParameters where
  nx : ℕ
  ny : ℕ
  solar_irradiance : ℝ
  ambient_temperature : ℝ
  wind_speed : ℝ
  cell_efficiency : ℝ
  thermal_conductivity : ℝ
  absorptivity : ℝ
  emissivity : ℝ
  dt : ℝ
  n_steps : ℕ

/-- The dataclass defaults: nx=ny=25, irradiance 1000, ambient 300 K,
wind 1 m/s, efficiency 0.20, conductivity 130, absorptivity 0.95,
emissivity 0.90, dt 0.1 s, 100 steps. -/
def defaultParams : SimulationParameters :=
  ⟨25, 25, 1000, 300, 1, 0.20, 130, 0.95, 0.90, 0.1, 100⟩

/-- Stefan-Boltzmann constant, W/(m²·K⁴) (class constant). -/
def STEFAN_BOLTZMANN : ℝ := 5.67e-8

/-- Cell area, m² per cell (`self.cell_area = 0.01`). -/
def cell_area : ℝ := 0.01

/-- Grid spacing in x, m (`self.dx = 0.1`). -/
def dx : ℝ := 0.1

/-- Grid spacing in y, m (`self.dy = 0.1`). -/
def dy : ℝ := 0.1

/-- `np.clip(x, lo, hi)`: elementwise `minimum(hi, maximum(lo, x))`. -/
def clip (x lo hi : ℝ) : ℝ := min hi (max lo x)

/-- `np.linspace(0, 1, n)` at index `i`: `i/(n-1)` for `n ≥ 2`, else `0`. -/
def linspace01 (n i : ℕ) : ℝ := if n ≤ 1 then 0 else (i : ℝ) / ((n : ℝ) - 1)

/-- Edge attenuation factor from `compute_solar_absorption`:
`1 - 0.1*(e^(-10X) + e^(-10(1-X)) + e^(-10Y) + e^(-10(1-Y)))` where
`X = x[j]`, `Y = y[i]` after `meshgrid`. -/
def edge_factor (p : SimulationParameters) (i j : ℕ) : ℝ :=
  1 - 0.1 * (Real.exp (-10 * linspace01 p.nx j) +
             Real.exp (-10 * (1 - linspace01 p.nx j)) +
             Real.exp (-10 * linspace01 p.ny i) +
             Real.exp (-10 * (1 - linspace01 p.ny i)))

/-- `compute_solar_absorption`: base absorption
`irradiance * absorptivity * cell_area` scaled by the edge factor. -/
def compute_solar_absorption (p : SimulationParameters) (i j : ℕ) : ℝ :=
  p.solar_irradiance * p.absorptivity * cell_area * edge_factor p i j

/-- Local temperature-derated efficiency from `compute_electrical_generation`:
`np.clip(cell_efficiency * (1 - 0.004*(T - 298.15)), 0.05, 0.30)`. -/
def eta_local (p : SimulationParameters) (t : ℝ) : ℝ :=
  clip (p.cell_efficiency * (1 - 0.004 * (t - 298.15))) 0.05 0.30

/-- `compute_electrical_generation`: `P_elec = eta_T * Q_solar`. -/
def compute_electrical_generation (p : SimulationParameters)
    (T : ℕ → ℕ → ℝ) (i j : ℕ) : ℝ :=
  eta_local p (T i j) * compute_solar_absorption p i j

/-- Convection coefficient from `compute_convective_cooling`:
`h = 10.45 - v + 10*sqrt(v)` then `h = max(5.0, h)`. -/
def h_conv (p : SimulationParameters) : ℝ :=
  max 5.0 (10.45 - p.wind_speed + 10 * Real.sqrt p.wind_speed)

/-- `compute_convective_cooling`: `Q_conv = h * cell_area * (T - T_amb)`. -/
def compute_convective_cooling (p : SimulationParameters)
    (T : ℕ → ℕ → ℝ) (i j : ℕ) : ℝ :=
  h_conv p * cell_area * (T i j - p.ambient_temperature)

/-- `compute_radiative_cooling`: `Q_rad = emissivity * sigma * cell_area *
(T^4 - T_sky^4)` with `T_sky = T_amb - 10`. -/
def compute_radiative_cooling (p : SimulationParameters)
    (T : ℕ → ℕ → ℝ) (i j : ℕ) : ℝ :=
  p.emissivity * STEFAN_BOLTZMANN * cell_area *
    ((T i j) ^ 4 - (p.ambient_temperature - 10) ^ 4)

/-- Silicon density, kg/m³ (`rho = 2330.0` in `compute_conduction` and the
Euler update). -/
def rho : ℝ := 2330.0

/-- Silicon specific heat, J/(kg·K) (`c_p = 700.0`). -/
def c_p : ℝ := 700.0

/-- Thermal diffusivity `alpha = k / (rho * c_p)`. -/
def alpha (p : SimulationParameters) : ℝ :=
  p.thermal_conductivity / (rho * c_p)

/-- The conduction flux of one cell as a function of its own temperature
`tC` and the four (clamped) neighbour temperatures: left `tL`, right `tR`,
previous row `tB`, next row `tU`:
`Q_cond = alpha * ((tR - 2 tC + tL)/dx² + (tU - 2 tC + tB)/dy²) * rho * c_p
* cell_area * dx`. -/
def cond_flux (p : SimulationParameters) (tL tC tR tB tU : ℝ) : ℝ :=
  alpha p * ((tR - 2 * tC + tL) / dx ^ 2 + (tU - 2 * tC + tB) / dy ^ 2) *
    rho * c_p * cell_area * dx

/-- `compute_conduction`: the 5-point stencil of `T_pad = np.pad(T, 1,
mode='edge')`; slicing the padded array gives each cell its neighbours with
indices clamped into the grid (`j-1` is ℕ-subtraction, so column 0 reuses
itself as its left neighbour, matching edge padding). -/
def compute_conduction (p : SimulationParameters)
    (T : ℕ → ℕ → ℝ) (i j : ℕ) : ℝ :=
  cond_flux p (T i (j - 1)) (T i j) (T i (min (j + 1) (p.nx - 1)))
    (T (i - 1) j) (T (min (i + 1) (p.ny - 1)) j)

/-- Mutable state of `SimplifiedPhysicsSolver`: the temperature and power
grids. -/
structure SolverState where
  temperature : ℕ → ℕ → ℝ
  power_generation : ℕ → ℕ → ℝ

/-- Solver `__init__`: uniform ambient temperature, zero power. -/
def initState (p : SimulationParameters) : SolverState :=
  ⟨fun _ _ => p.ambient_temperature, fun _ _ => 0⟩

/-- Cell mass `2330.0 * cell_area * 0.002` (rho * area * thickness) from the
Euler update in `run_simulation`. -/
def mass : ℝ := 2330.0 * cell_area * 0.002

/-- Net heat flux of one step (`run_simulation`, loop body):
`Q_net = (1 - cell_efficiency) * Q_solar - Q_conv - Q_rad + Q_cond`. -/
def Q_net (p : SimulationParameters) (T : ℕ → ℕ → ℝ) (i j : ℕ) : ℝ :=
  (1 - p.cell_efficiency) * compute_solar_absorption p i j
    - compute_convective_cooling p T i j
    - compute_radiative_cooling p T i j
    + compute_conduction p T i j

/-- One iteration of the `run_simulation` loop: the power grid becomes
`P_elec` of the current temperature; the temperature gets the explicit Euler
update `T + Q_net*dt/(mass*c_p)` followed by the safety clamp
`np.clip(·, 200.0, 450.0)`. -/
def stepState (p : SimulationParameters) (s : SolverState) : SolverState :=
  { temperature := fun i j =>
      clip (s.temperature i j + Q_net p s.temperature i j * p.dt / (mass * c_p))
        200.0 450.0
    power_generation := fun i j =>
      compute_electrical_generation p s.temperature i j }

/-- The solver state after `k` iterations of the loop. -/
def runSteps (p : SimulationParameters) : ℕ → SolverState
  | 0 => initState p
  | k + 1 => stepState p (runSteps p k)

/-- All grid values in row-major order (for the numpy reductions). -/
def gridVals (p : SimulationParameters) (g : ℕ → ℕ → ℝ) : List ℝ :=
  ((List.range p.ny).map (fun i => (List.range p.nx).map (fun j => g i j))).flatten

/-- `np.sum` over the grid. -/
def gridSum (p : SimulationParameters) (g : ℕ → ℕ → ℝ) : ℝ :=
  ∑ i ∈ Finset.range p.ny, ∑ j ∈ Finset.range p.nx, g i j

/-- `np.mean` over the grid. -/
def gridMean (p : SimulationParameters) (g : ℕ → ℕ → ℝ) : ℝ :=
  gridSum p g / ((p.ny : ℝ) * (p.nx : ℝ))

/-- `np.max` over the grid. -/
def gridMax (p : SimulationParameters) (g : ℕ → ℕ → ℝ) : ℝ :=
  (gridVals p g).foldr max (g 0 0)

/-- `np.min` over the grid. -/
def gridMin (p : SimulationParameters) (g : ℕ → ℕ → ℝ) : ℝ :=
  (gridVals p g).foldr min (g 0 0)

/-- The results dictionary built at the end of `run_simulation` (without
`runtime_ms`, which is wall-clock time, not part of the computation). -/
structure ResultSummary where
  temperature_field : ℕ → ℕ → ℝ
  power_field : ℕ → ℕ → ℝ
  temperature_mean : ℝ
  temperature_max : ℝ
  temperature_min : ℝ
  power_total : ℝ
  power_mean : ℝ
  efficiency_avg : ℝ

/-- `SimplifiedPhysicsSolver.run_simulation`: run `n_steps` loop iterations
from the initial state, then aggregate the summary statistics. -/
def run_simulation (p : SimulationParameters) : ResultSummary :=
  let s := runSteps p p.n_steps
  { temperature_field := s.temperature
    power_field := s.power_generation
    temperature_mean := gridMean p s.temperature
    temperature_max := gridMax p s.temperature
    temperature_min := gridMin p s.temperature
    power_total := gridSum p s.power_generation
    power_mean := gridMean p s.power_generation
    efficiency_avg := gridMean p (fun i j =>
      s.power_generation i j / (compute_solar_absorption p i j + 1e-10)) }

/-- The range checks performed by the `/api/simulate` route handler after
constructing the parameters, in source order, with the source's error
messages; `none` means all checks passed. -/
def checkParams (p : SimulationParameters) : Option String :=
  if ¬(800 ≤ p.solar_irradiance ∧ p.solar_irradiance ≤ 1200) then
    some "Solar irradiance out of range [800-1200]"
  else if ¬(280 ≤ p.ambient_temperature ∧ p.ambient_temperature ≤ 330) then
    some "Ambient temperature out of range [280-330]"
  else if ¬(0 ≤ p.wind_speed ∧ p.wind_speed ≤ 10) then
    some "Wind speed out of range [0-10]"
  else if ¬(0.10 ≤ p.cell_efficiency ∧ p.cell_efficiency ≤ 0.30) then
    some "Cell efficiency out of range [0.10-0.30]"
  else none

/-- The `/api/simulate` route (Python function also named `run_simulation`):
construct parameters, validate ranges, and only on success run the solver. -/
def simulateRoute (p : SimulationParameters) : Except String ResultSummary :=
  match checkParams p with
  | some e => Except.error e
  | none => Except.ok (run_simulation p)

/-- A parameter set inside every documented range (the spec's §3 data
model): the four route-validated ranges plus conductivity 100-200,
absorptivity 0.85-0.98, emissivity 0.80-0.95, and a positive time step. -/
def ValidParams (p : SimulationParameters) : Prop :=
  800 ≤ p.solar_irradiance ∧ p.solar_irradiance ≤ 1200 ∧
  280 ≤ p.ambient_temperature ∧ p.ambient_temperature ≤ 330 ∧
  0 ≤ p.wind_speed ∧ p.wind_speed ≤ 10 ∧
  0.10 ≤ p.cell_efficiency ∧ p.cell_efficiency ≤ 0.30 ∧
  100 ≤ p.thermal_conductivity ∧ p.thermal_conductivity ≤ 200 ∧
  0.85 ≤ p.absorptivity ∧ p.absorptivity ≤ 0.98 ∧
  0.80 ≤ p.emissivity ∧ p.emissivity ≤ 0.95 ∧
  0 < p.dt

/-! Helper lemmas. -/

lemma le_clip (x lo hi : ℝ) (h : lo ≤ hi) : lo ≤ clip x lo hi :=
  le_min h (le_max_left lo x)

lemma clip_le_hi (x lo hi : ℝ) : clip x lo hi ≤ hi :=
  min_le_left hi (max lo x)

lemma eta_local_lb (p : SimulationParameters) (t : ℝ) : 0.05 ≤ eta_local p t :=
  le_clip _ _ _ (by norm_num)

lemma eta_local_ub (p : SimulationParameters) (t : ℝ) : eta_local p t ≤ 0.30 :=
  clip_le_hi _ _ _

lemma linspace01_nonneg (n i : ℕ) : 0 ≤ linspace01 n i := by
  unfold linspace01
  split
  · exact le_refl 0
  · rename_i h
    have h2 : (2 : ℝ) ≤ (n : ℝ) := by exact_mod_cast Nat.not_le.mp h
    exact div_nonneg (Nat.cast_nonneg i) (by linarith)

lemma linspace01_le_one (n i : ℕ) (h : i < n) : linspace01 n i ≤ 1 := by
  unfold linspace01
  split
  · norm_num
  · rename_i hn
    have h2 : (2 : ℝ) ≤ (n : ℝ) := by exact_mod_cast Nat.not_le.mp hn
    have hin : (i : ℝ) + 1 ≤ (n : ℝ) := by exact_mod_cast h
    rw [div_le_one (by linarith)]
    linarith

lemma edge_factor_bounds (p : SimulationParameters) (i j : ℕ)
    (hi : i < p.ny) (hj : j < p.nx) :
    0.6 ≤ edge_factor p i j ∧ edge_factor p i j < 1 := by
  unfold edge_factor
  have hX0 := linspace01_nonneg p.nx j
  have hX1 := linspace01_le_one p.nx j hj
  have hY0 := linspace01_nonneg p.ny i
  have hY1 := linspace01_le_one p.ny i hi
  have e1 : Real.exp (-10 * linspace01 p.nx j) ≤ 1 :=
    Real.exp_le_one_iff.mpr (by nlinarith)
  have e2 : Real.exp (-10 * (1 - linspace01 p.nx j)) ≤ 1 :=
    Real.exp_le_one_iff.mpr (by nlinarith)
  have e3 : Real.exp (-10 * linspace01 p.ny i) ≤ 1 :=
    Real.exp_le_one_iff.mpr (by nlinarith)
  have e4 : Real.exp (-10 * (1 - linspace01 p.ny i)) ≤ 1 :=
    Real.exp_le_one_iff.mpr (by nlinarith)
  have p1 := Real.exp_pos (-10 * linspace01 p.nx j)
  have p2 := Real.exp_pos (-10 * (1 - linspace01 p.nx j))
  have p3 := Real.exp_pos (-10 * linspace01 p.ny i)
  have p4 := Real.exp_pos (-10 * (1 - linspace01 p.ny i))
  constructor <;> nlinarith

lemma compute_solar_absorption_nonneg (p : SimulationParameters) (i j : ℕ)
    (h1 : 0 ≤ p.solar_irradiance) (h2 : 0 ≤ p.absorptivity)
    (hi : i < p.ny) (hj : j < p.nx) :
    0 ≤ compute_solar_absorption p i j := by
  have he := (edge_factor_bounds p i j hi hj).1
  unfold compute_solar_absorption
  have hca : (0 : ℝ) ≤ cell_area := by norm_num [cell_area]
  exact mul_nonneg (mul_nonneg (mul_nonneg h1 h2) hca) (by linarith)

lemma compute_solar_absorption_le (p : SimulationParameters) (i j : ℕ)
    (h1 : 0 ≤ p.solar_irradiance) (h2 : 0 ≤ p.absorptivity)
    (hi : i < p.ny) (hj : j < p.nx) :
    compute_solar_absorption p i j ≤
      p.solar_irradiance * p.absorptivity * cell_area := by
  have he := (edge_factor_bounds p i j hi hj).2
  unfold compute_solar_absorption
  have hca : (0 : ℝ) ≤ cell_area := by norm_num [cell_area]
  exact mul_le_of_le_one_right (mul_nonneg (mul_nonneg h1 h2) hca) (le_of_lt he)

lemma h_conv_at_zero (p : SimulationParameters) (h : p.wind_speed = 0) :
    h_conv p = 10.45 := by
  unfold h_conv
  rw [h, Real.sqrt_zero]
  norm_num

/-! Claim theorems. -/

/-- C1: for every valid ParameterSet and every step count `k ≥ 0`, after `k`
steps of the solver loop every grid cell's temperature lies in the closed
interval [200, 450]; in particular the final `temperature_field` of the
result does. -/
theorem C1_temperature_bounds (p : SimulationParameters) (hp : ValidParams p)
    (k i j : ℕ) (hi : i < p.ny) (hj : j < p.nx) :
    (200 ≤ (runSteps p k).temperature i j ∧ (runSteps p k).temperature i j ≤ 450) ∧
    (200 ≤ (run_simulation p).temperature_field i j ∧
      (run_simulation p).temperature_field i j ≤ 450) := by
  obtain ⟨-, -, hamb1, hamb2, -⟩ := hp
  have key : ∀ m : ℕ, 200 ≤ (runSteps p m).temperature i j ∧
      (runSteps p m).temperature i j ≤ 450 := by
    intro m
    cases m with
    | zero =>
        simp only [runSteps, initState]
        constructor <;> linarith
    | succ m =>
        simp only [runSteps, stepState]
        exact ⟨le_trans (by norm_num) (le_clip _ _ _ (by norm_num)),
          le_trans (clip_le_hi _ _ _) (by norm_num)⟩
  exact ⟨key k, key p.n_steps⟩

/-- C1 witness: the bound holds at the default parameters after one step,
at cell (0,0). -/
theorem C1_temperature_bounds_witness :
    (200 ≤ (runSteps defaultParams 1).temperature 0 0 ∧
      (runSteps defaultParams 1).temperature 0 0 ≤ 450) ∧
    (200 ≤ (run_simulation defaultParams).temperature_field 0 0 ∧
      (run_simulation defaultParams).temperature_field 0 0 ≤ 450) :=
  C1_temperature_bounds defaultParams
    (by norm_num [ValidParams, defaultParams]) 1 0 0
    (by norm_num [defaultParams]) (by norm_num [defaultParams])

/-- C2 counterexample: with wind speed 0 the effective convection
coefficient is 10.45, not 5.0 — the formula gives `max(5.0, 10.45) = 10.45`,
so the natural-convection floor is inactive at zero wind. -/
theorem C2_counterexample :
    h_conv { defaultParams with wind_speed := 0 } ≠ 5.0 ∧
    h_conv { defaultParams with wind_speed := 0 } = 10.45 := by
  have h := h_conv_at_zero { defaultParams with wind_speed := 0 } rfl
  exact ⟨by rw [h]; norm_num, h⟩

/-- C2 amended: the convection coefficient is
`max(5.0, 10.45 - v + 10*sqrt v)` exactly as the code computes it, and at
`wind_speed = 0` it equals 10.45 (the floor of 5.0 does not bind there). -/
theorem C2_convection_coefficient :
    (∀ p : SimulationParameters,
      h_conv p = max 5.0 (10.45 - p.wind_speed + 10 * Real.sqrt p.wind_speed)) ∧
    h_conv { defaultParams with wind_speed := 0 } = 10.45 :=
  ⟨fun _ => rfl, h_conv_at_zero _ rfl⟩

/-- C3 counterexample: constructing a ParameterSet with
`solar_irradiance = 1500` (outside [800, 1200]) succeeds — the dataclass
performs no validation, so a ParameterSet that exists can be out of range;
rejection does not happen at construction time. -/
theorem C3_counterexample :
    ({ defaultParams with solar_irradiance := 1500 } :
        SimulationParameters).solar_irradiance = 1500 ∧
    ¬(800 ≤ ({ defaultParams with solar_irradiance := 1500 } :
        SimulationParameters).solar_irradiance ∧
      ({ defaultParams with solar_irradiance := 1500 } :
        SimulationParameters).solar_irradiance ≤ 1200) := by
  norm_num [defaultParams]

/-- C3 amended: validation happens in the `/api/simulate` route handler,
after the ParameterSet is constructed but before the solver runs: whenever
the route returns a successful result, the four route-checked fields
(`solar_irradiance`, `ambient_temperature`, `wind_speed`,
`cell_efficiency`) were in range, and the result is the solver's output —
so the solver is never invoked through the route on input failing those
checks. -/
theorem C3_route_rejects_before_solver (p : SimulationParameters)
    (r : ResultSummary) (h : simulateRoute p = Except.ok r) :
    (800 ≤ p.solar_irradiance ∧ p.solar_irradiance ≤ 1200) ∧
    (280 ≤ p.ambient_temperature ∧ p.ambient_temperature ≤ 330) ∧
    (0 ≤ p.wind_speed ∧ p.wind_speed ≤ 10) ∧
    (0.10 ≤ p.cell_efficiency ∧ p.cell_efficiency ≤ 0.30) ∧
    r = run_simulation p := by
  have hc : checkParams p = none ∧ r = run_simulation p := by
    unfold simulateRoute at h
    cases hcp : checkParams p with
    | none =>
        rw [hcp] at h
        simp only [Except.ok.injEq] at h
        exact ⟨rfl, h.symm⟩
    | some e =>
        rw [hcp] at h
        simp at h
  obtain ⟨hnone, hr⟩ := hc
  unfold checkParams at hnone
  split_ifs at hnone with h1 h2 h3 h4
  exact ⟨h1, h2, h3, h4, hr⟩

/-- C3 witness: the default parameters pass the route checks and the route
runs the solver on them. -/
theorem C3_route_rejects_before_solver_witness :
    (800 ≤ defaultParams.solar_irradiance ∧
      defaultParams.solar_irradiance ≤ 1200) ∧
    (280 ≤ defaultParams.ambient_temperature ∧
      defaultParams.ambient_temperature ≤ 330) ∧
    (0 ≤ defaultParams.wind_speed ∧ defaultParams.wind_speed ≤ 10) ∧
    (0.10 ≤ defaultParams.cell_efficiency ∧
      defaultParams.cell_efficiency ≤ 0.30) ∧
    run_simulation defaultParams = run_simulation defaultParams :=
  C3_route_rejects_before_solver defaultParams (run_simulation defaultParams)
    (by simp only [simulateRoute, checkParams]; norm_num [defaultParams])

/-- C4: each step computes the net heat flux with the configured nominal
`cell_efficiency` while the power grid of the same step uses the local
temperature-derated efficiency `clip(cell_efficiency*(1-0.004*(T-298.15)),
0.05, 0.30)`; the two efficiency values genuinely differ (at the default
parameters and 300 K the derated value is 0.19852, not 0.20). -/
theorem C4_two_efficiencies :
    (∀ (p : SimulationParameters) (s : SolverState) (i j : ℕ),
      (stepState p s).power_generation i j =
        eta_local p (s.temperature i j) * compute_solar_absorption p i j ∧
      Q_net p s.temperature i j =
        (1 - p.cell_efficiency) * compute_solar_absorption p i j
          - compute_convective_cooling p s.temperature i j
          - compute_radiative_cooling p s.temperature i j
          + compute_conduction p s.temperature i j) ∧
    eta_local defaultParams 300 ≠ defaultParams.cell_efficiency := by
  refine ⟨fun p s i j => ⟨rfl, rfl⟩, ?_⟩
  unfold eta_local clip defaultParams
  norm_num [min_def, max_def]

/-- C5: the solver is a pure function of the ParameterSet: two runs from
equal parameter values produce identical ResultSummary fields — there is no
hidden randomness or shared state in the core. -/
theorem C5_deterministic (p q : SimulationParameters) (h : p = q) :
    (∀ i j, (run_simulation p).temperature_field i j =
      (run_simulation q).temperature_field i j) ∧
    (∀ i j, (run_simulation p).power_field i j =
      (run_simulation q).power_field i j) ∧
    (run_simulation p).temperature_mean = (run_simulation q).temperature_mean ∧
    (run_simulation p).temperature_max = (run_simulation q).temperature_max ∧
    (run_simulation p).temperature_min = (run_simulation q).temperature_min ∧
    (run_simulation p).power_total = (run_simulation q).power_total ∧
    (run_simulation p).power_mean = (run_simulation q).power_mean ∧
    (run_simulation p).efficiency_avg = (run_simulation q).efficiency_avg := by
  subst h
  exact ⟨fun _ _ => rfl, fun _ _ => rfl, rfl, rfl, rfl, rfl, rfl, rfl⟩

/-- C5 witness: instantiated at two runs over the default parameters. -/
theorem C5_deterministic_witness :
    (∀ i j, (run_simulation defaultParams).temperature_field i j =
      (run_simulation defaultParams).temperature_field i j) ∧
    (∀ i j, (run_simulation defaultParams).power_field i j =
      (run_simulation defaultParams).power_field i j) ∧
    (run_simulation defaultParams).temperature_mean =
      (run_simulation defaultParams).temperature_mean ∧
    (run_simulation defaultParams).temperature_max =
      (run_simulation defaultParams).temperature_max ∧
    (run_simulation defaultParams).temperature_min =
      (run_simulation defaultParams).temperature_min ∧
    (run_simulation defaultParams).power_total =
      (run_simulation defaultParams).power_total ∧
    (run_simulation defaultParams).power_mean =
      (run_simulation defaultParams).power_mean ∧
    (run_simulation defaultParams).efficiency_avg =
      (run_simulation defaultParams).efficiency_avg :=
  C5_deterministic defaultParams defaultParams rfl

/-- C6: for every valid ParameterSet, after every number of steps every
in-grid value of the power grid (and of the final `power_field`) is
non-negative: the local efficiency is clipped to [0.05, 0.30] and the
absorbed solar power is non-negative at every grid position. -/
theorem C6_power_nonneg (p : SimulationParameters) (hp : ValidParams p)
    (k i j : ℕ) (hi : i < p.ny) (hj : j < p.nx) :
    0 ≤ (runSteps p k).power_generation i j ∧
    0 ≤ (run_simulation p).power_field i j := by
  obtain ⟨hirr, -, -, -, -, -, -, -, -, -, habs, -⟩ := hp
  have h0irr : 0 ≤ p.solar_irradiance := by linarith
  have h0abs : 0 ≤ p.absorptivity := by linarith
  have key : ∀ m : ℕ, 0 ≤ (runSteps p m).power_generation i j := by
    intro m
    cases m with
    | zero => simp [runSteps, initState]
    | succ m =>
        simp only [runSteps, stepState, compute_electrical_generation]
        exact mul_nonneg (le_trans (by norm_num) (eta_local_lb p _))
          (compute_solar_absorption_nonneg p i j h0irr h0abs hi hj)
  exact ⟨key k, key p.n_steps⟩

/-- C6 witness: at the default parameters after one step, cell (0,0). -/
theorem C6_power_nonneg_witness :
    0 ≤ (runSteps defaultParams 1).power_generation 0 0 ∧
    0 ≤ (run_simulation defaultParams).power_field 0 0 :=
  C6_power_nonneg defaultParams (by norm_num [ValidParams, defaultParams]) 1 0 0
    (by norm_num [defaultParams]) (by norm_num [defaultParams])

/-- C7: the route's irradiance check uses inclusive bounds: 1500 is
rejected with the message naming solar irradiance and the range
[800-1200] (and the route returns that error), while the boundary values
800 and 1200 pass all checks. -/
theorem C7_irradiance_validation :
    checkParams { defaultParams with solar_irradiance := 1500 } =
      some "Solar irradiance out of range [800-1200]" ∧
    simulateRoute { defaultParams with solar_irradiance := 1500 } =
      Except.error "Solar irradiance out of range [800-1200]" ∧
    checkParams { defaultParams with solar_irradiance := 800 } = none ∧
    checkParams { defaultParams with solar_irradiance := 1200 } = none := by
  have hbad : checkParams { defaultParams with solar_irradiance := 1500 } =
      some "Solar irradiance out of range [800-1200]" := by
    simp only [checkParams]
    norm_num [defaultParams]
  refine ⟨hbad, ?_, ?_, ?_⟩
  · unfold simulateRoute
    rw [hbad]
  · simp only [checkParams]
    norm_num [defaultParams]
  · simp only [checkParams]
    norm_num [defaultParams]

/-- C8: with `n_steps = 0` the loop body never runs: the final
`temperature_field` is the initial uniform ambient-temperature field and
the `power_field` is identically zero. -/
theorem C8_zero_steps (p : SimulationParameters) (h : p.n_steps = 0)
    (i j : ℕ) :
    (run_simulation p).temperature_field i j = p.ambient_temperature ∧
    (run_simulation p).power_field i j = 0 := by
  simp [run_simulation, h, runSteps, initState]

/-- C8 witness: the default parameters with the step count set to zero,
at cell (0,0). -/
theorem C8_zero_steps_witness :
    (run_simulation { defaultParams with n_steps := 0 }).temperature_field 0 0 =
      ({ defaultParams with n_steps := 0 } :
        SimulationParameters).ambient_temperature ∧
    (run_simulation { defaultParams with n_steps := 0 }).power_field 0 0 = 0 :=
  C8_zero_steps { defaultParams with n_steps := 0 } rfl 0 0

/-- C9: the conduction stencil realizes edge-replicated (zero-gradient)
boundary extension, for every cell: every cell of column 0 reuses its own
value as its missing left neighbour, every cell of row 0 as its missing
lower neighbour, and whenever a cell sits in the last column (`j+1 = nx`)
or last row (`i+1 = ny`) it reuses its own value as its right/upper
neighbour; consequently a spatially uniform temperature grid has zero
conduction flux in every cell `(i, j)`. -/
theorem C9_conduction_boundary (p : SimulationParameters) (T : ℕ → ℕ → ℝ)
    (i j : ℕ) (c : ℝ) :
    compute_conduction p T i 0 =
      cond_flux p (T i 0) (T i 0) (T i (min 1 (p.nx - 1))) (T (i - 1) 0)
        (T (min (i + 1) (p.ny - 1)) 0) ∧
    compute_conduction p T 0 j =
      cond_flux p (T 0 (j - 1)) (T 0 j) (T 0 (min (j + 1) (p.nx - 1)))
        (T 0 j) (T (min 1 (p.ny - 1)) j) ∧
    (j + 1 = p.nx → compute_conduction p T i j =
      cond_flux p (T i (j - 1)) (T i j) (T i j) (T (i - 1) j)
        (T (min (i + 1) (p.ny - 1)) j)) ∧
    (i + 1 = p.ny → compute_conduction p T i j =
      cond_flux p (T i (j - 1)) (T i j) (T i (min (j + 1) (p.nx - 1)))
        (T (i - 1) j) (T i j)) ∧
    compute_conduction p (fun _ _ => c) i j = 0 := by
  refine ⟨rfl, rfl, ?_, ?_, ?_⟩
  · intro hj
    have hx : min (j + 1) (p.nx - 1) = j := by omega
    unfold compute_conduction
    rw [hx]
  · intro hi
    have hy : min (i + 1) (p.ny - 1) = i := by omega
    unfold compute_conduction
    rw [hy]
  · simp only [compute_conduction, cond_flux]
    ring

/-- C9 witness: the boundary identities exercised on the default 25×25
grid at a left-edge cell, a bottom-edge cell, a right-edge cell and a
top-edge cell (discharging the `j+1 = nx` and `i+1 = ny` hypotheses), and
zero conduction flux on a uniform grid at an interior cell. -/
theorem C9_conduction_boundary_witness :
    compute_conduction defaultParams (fun _ _ => (5 : ℝ)) 3 0 =
      cond_flux defaultParams 5 5 5 5 5 ∧
    compute_conduction defaultParams (fun _ _ => (5 : ℝ)) 0 7 =
      cond_flux defaultParams 5 5 5 5 5 ∧
    compute_conduction defaultParams (fun _ _ => (5 : ℝ)) 3 24 =
      cond_flux defaultParams 5 5 5 5 5 ∧
    compute_conduction defaultParams (fun _ _ => (5 : ℝ)) 24 7 =
      cond_flux defaultParams 5 5 5 5 5 ∧
    compute_conduction defaultParams (fun _ _ => (7 : ℝ)) 3 5 = 0 := by
  have h1 := C9_conduction_boundary defaultParams (fun _ _ => (5 : ℝ)) 3 7 7
  have h2 := C9_conduction_boundary defaultParams (fun _ _ => (5 : ℝ)) 3 24 7
  have h3 := C9_conduction_boundary defaultParams (fun _ _ => (5 : ℝ)) 24 7 7
  have h4 := C9_conduction_boundary defaultParams (fun _ _ => (7 : ℝ)) 3 5 7
  exact ⟨h1.1, h1.2.1, h2.2.2.1 (by norm_num [defaultParams]),
    h3.2.2.2.1 (by norm_num [defaultParams]), h4.2.2.2.2⟩

/-- C10: for every valid ParameterSet, after every number of steps every
in-grid power value is at most `0.30 * solar_irradiance * absorptivity *
0.01`: the clipped efficiency never exceeds 0.30 and the edge factor never
exceeds 1. -/
theorem C10_power_upper_bound (p : SimulationParameters) (hp : ValidParams p)
    (k i j : ℕ) (hi : i < p.ny) (hj : j < p.nx) :
    (runSteps p k).power_generation i j ≤
      0.30 * p.solar_irradiance * p.absorptivity * 0.01 ∧
    (run_simulation p).power_field i j ≤
      0.30 * p.solar_irradiance * p.absorptivity * 0.01 := by
  obtain ⟨hirr, -, -, -, -, -, -, -, -, -, habs, -⟩ := hp
  have h0irr : 0 ≤ p.solar_irradiance := by linarith
  have h0abs : 0 ≤ p.absorptivity := by linarith
  have hrhs : 0 ≤ 0.30 * p.solar_irradiance * p.absorptivity * 0.01 := by
    have := mul_nonneg (mul_nonneg (mul_nonneg
      (by norm_num : (0 : ℝ) ≤ 0.30) h0irr) h0abs)
      (by norm_num : (0 : ℝ) ≤ 0.01)
    linarith
  have key : ∀ m : ℕ, (runSteps p m).power_generation i j ≤
      0.30 * p.solar_irradiance * p.absorptivity * 0.01 := by
    intro m
    cases m with
    | zero =>
        simp only [runSteps, initState]
        exact hrhs
    | succ m =>
        simp only [runSteps, stepState, compute_electrical_generation]
        have hQs0 := compute_solar_absorption_nonneg p i j h0irr h0abs hi hj
        have hQsle := compute_solar_absorption_le p i j h0irr h0abs hi hj
        have hetale := eta_local_ub p ((runSteps p m).temperature i j)
        calc eta_local p ((runSteps p m).temperature i j) *
              compute_solar_absorption p i j
            ≤ 0.30 * compute_solar_absorption p i j :=
              mul_le_mul_of_nonneg_right hetale hQs0
          _ ≤ 0.30 * (p.solar_irradiance * p.absorptivity * cell_area) :=
              mul_le_mul_of_nonneg_left hQsle (by norm_num)
          _ = 0.30 * p.solar_irradiance * p.absorptivity * 0.01 := by
              unfold cell_area
              ring
  exact ⟨key k, key p.n_steps⟩

/-- C10 witness: at the default parameters after one step, cell (0,0). -/
theorem C10_power_upper_bound_witness :
    (runSteps defaultParams 1).power_generation 0 0 ≤
      0.30 * defaultParams.solar_irradiance * defaultParams.absorptivity * 0.01 ∧
    (run_simulation defaultParams).power_field 0 0 ≤
      0.30 * defaultParams.solar_irradiance * defaultParams.absorptivity * 0.01 :=
  C10_power_upper_bound defaultParams
    (by norm_num [ValidParams, defaultParams]) 1 0 0
    (by norm_num [defaultParams]) (by norm_num [defaultParams])

end

end AuraMF
